import Mathlib

/-!
Verification of the query-construction and result-normalization core of
`hfsearch` (`src/hfsearch/search.py`): the two query functions
`search_models` and `search_datasets`, their outbound-request (kwargs)
construction, the per-record normalizer, and the error wrapping.

Embedding conventions:
- A raw catalog record (shape owned by the external service) is a structure
  of optional fields; an absent Python attribute is `none` (the code reads
  every attribute through `getattr(..., default)`).  The raw `author`
  attribute defaulting to `None` and being absent are indistinguishable in
  the source (`getattr(model, "author", None)`), so both are `none`.
- Python string truthiness (`if query:`) is `optStrTruthy`; list truthiness
  (`if tags:`) is `optListTruthy`.
- `"/" in model_id` is membership of `'/'` in the string's character list;
  `model_id.split("/")[0]` is the longest prefix of characters distinct
  from `'/'` (Python's split on a single character, first component).
- The external catalog client (`HfApi.list_models` / `list_datasets`) is a
  parameter: a function from the built kwargs to either a service failure
  or the list of raw records its result stream yields.  `raise RuntimeError
  (f"Error searching ...: {e}") from e` is an `Except.error` carrying the
  formatted message together with the original failure as `cause`.
-/

/-- A raw catalog record: an opaque handle whose attributes may each be
absent.  Mirrors the attributes `search.py` reads via `getattr`. -/
structure RawRecord where
  id : Option String
  author : Option String
  downloads : Option Nat
  likes : Option Nat
  tags : Option (List String)
deriving DecidableEq, Repr

/-- The normalized record built by both query functions: the dict with keys
`id`, `author`, `downloads`, `likes`, `tags`. -/
structure NormalizedRecord where
  id : String
  author : String
  downloads : Nat
  likes : Nat
  tags : List String
deriving DecidableEq, Repr

/-- Python `"/" in s` for the single-character separator. -/
def hasSlash (s : String) : Bool := s.data.contains '/'

/-- Python `s.split("/")[0]`: the prefix of `s` up to (excluding) the first
`'/'`; the whole string when there is no `'/'`. -/
def beforeFirstSlash (s : String) : String :=
  String.mk (s.data.takeWhile (fun c => c != '/'))

/-- Per-record normalization performed in the loop body of `search_models`
(`search.py` lines 54-70). -/
def normalizeModel (model : RawRecord) : NormalizedRecord :=
  let model_id := model.id.getD "N/A"
  let model_author :=
    if hasSlash model_id then
      beforeFirstSlash model_id
    else
      match model.author with
      | some a => if a = "" then "N/A" else a
      | none => "N/A"
  { id := model_id
    author := model_author
    downloads := model.downloads.getD 0
    likes := model.likes.getD 0
    tags := model.tags.getD [] }

/-- Per-record normalization performed in the loop body of `search_datasets`
(`search.py` lines 120-136). -/
def normalizeDataset (dataset : RawRecord) : NormalizedRecord :=
  let dataset_id := dataset.id.getD "N/A"
  let dataset_author :=
    if hasSlash dataset_id then
      beforeFirstSlash dataset_id
    else
      match dataset.author with
      | some a => if a = "" then "N/A" else a
      | none => "N/A"
  { id := dataset_id
    author := dataset_author
    downloads := dataset.downloads.getD 0
    likes := dataset.likes.getD 0
    tags := dataset.tags.getD [] }

example :
    normalizeModel { id := some "google/bert-base", author := some "someone-else",
                     downloads := none, likes := none, tags := none } =
    { id := "google/bert-base", author := "google", downloads := 0, likes := 0, tags := [] } := by
  decide

/-- A value placed into the outbound kwargs dict. -/
inductive ParamValue where
  | nat (n : Nat)
  | str (s : String)
  | strList (l : List String)
deriving DecidableEq, Repr

/-- The outbound request to the catalog client: an ordered key/value dict
(Python dicts preserve insertion order). -/
abbrev Kwargs := List (String × ParamValue)

/-- Python truthiness of an `Optional[str]`: `None` and `""` are falsy. -/
def optStrTruthy : Option String → Bool
  | none => false
  | some s => !s.isEmpty

/-- Python truthiness of an `Optional[List[str]]`: `None` and `[]` are
falsy. -/
def optListTruthy : Option (List String) → Bool
  | none => false
  | some l => !l.isEmpty

/-- `None` is falsy. -/
theorem optStrTruthy_none : optStrTruthy none = false := rfl

/-- `None` is falsy. -/
theorem optListTruthy_none : optListTruthy none = false := rfl

/-- The empty string is falsy. -/
theorem optStrTruthy_some_empty : optStrTruthy (some "") = false := rfl

/-- The empty list is falsy. -/
theorem optListTruthy_some_nil : optListTruthy (some []) = false := rfl

/-- The default of the `limit` keyword parameter of both query functions
(`limit: int = 10`). -/
def defaultLimit : Nat := 10

/-- Kwargs construction of `search_models` (`search.py` lines 41-49). -/
def modelKwargs (query : Option String) (limit : Nat) (author : Option String)
    (tags : Option (List String)) (task : Option String) : Kwargs :=
  [("limit", ParamValue.nat limit)]
    ++ (if optStrTruthy query then [("search", ParamValue.str (query.getD ""))] else [])
    ++ (if optStrTruthy author then [("author", ParamValue.str (author.getD ""))] else [])
    ++ (if optListTruthy tags then [("filter", ParamValue.strList (tags.getD []))] else [])
    ++ (if optStrTruthy task then [("pipeline_tag", ParamValue.str (task.getD ""))] else [])

/-- Kwargs construction of `search_datasets` (`search.py` lines 109-115). -/
def datasetKwargs (query : Option String) (limit : Nat) (author : Option String)
    (tags : Option (List String)) : Kwargs :=
  [("limit", ParamValue.nat limit)]
    ++ (if optStrTruthy query then [("search", ParamValue.str (query.getD ""))] else [])
    ++ (if optStrTruthy author then [("author", ParamValue.str (author.getD ""))] else [])
    ++ (if optListTruthy tags then [("filter", ParamValue.strList (tags.getD []))] else [])

/-- A failure of the external catalog service call (any exception raised by
`HfApi.list_models` / `list_datasets` or while consuming its result
stream); `msg` is the exception's string rendering. -/
structure ServiceError where
  msg : String
deriving DecidableEq, Repr

/-- The external catalog client capability: maps the built kwargs either to
a service failure or to the finite list of raw records its result stream
yields. -/
abbrev Service := Kwargs → Except ServiceError (List RawRecord)

/-- The error a query raises: `RuntimeError(f"Error searching ...: {e}")
from e` — the formatted message together with the original failure kept as
the `cause` (`__cause__`). -/
structure SearchError where
  message : String
  cause : ServiceError
deriving DecidableEq, Repr

/-- Error wrapping of `search_models` (`search.py` lines 73-74). -/
def wrapModelError (e : ServiceError) : SearchError :=
  { message := "Error searching models: " ++ e.msg, cause := e }

/-- Error wrapping of `search_datasets` (`search.py` lines 139-140). -/
def wrapDatasetError (e : ServiceError) : SearchError :=
  { message := "Error searching datasets: " ++ e.msg, cause := e }

/-- `search_models` (`search.py` lines 7-74): build the kwargs, call the
catalog client, normalize each streamed raw record in order; any failure is
wrapped into a `SearchError`. -/
def search_models (query : Option String) (limit : Nat) (author : Option String)
    (tags : Option (List String)) (task : Option String) (api : Service) :
    Except SearchError (List NormalizedRecord) :=
  match api (modelKwargs query limit author tags task) with
  | Except.error e => Except.error (wrapModelError e)
  | Except.ok results => Except.ok (results.map normalizeModel)

/-- `search_datasets` (`search.py` lines 77-140): identical pipeline with
the dataset kwargs (no `task`), `normalizeDataset` and the dataset error
message. -/
def search_datasets (query : Option String) (limit : Nat) (author : Option String)
    (tags : Option (List String)) (api : Service) :
    Except SearchError (List NormalizedRecord) :=
  match api (datasetKwargs query limit author tags) with
  | Except.error e => Except.error (wrapDatasetError e)
  | Except.ok results => Except.ok (results.map normalizeDataset)

/-! Sample records used to instantiate theorems at concrete inputs. -/

/-- The spec's slash-id example: `id = "google/bert-base"`, raw author
`"someone-else"`. -/
def rawGoogle : RawRecord :=
  { id := some "google/bert-base", author := some "someone-else",
    downloads := none, likes := none, tags := none }

/-- The spec's no-slash example with raw author absent. -/
def rawSentimentNone : RawRecord :=
  { id := some "sentiment140", author := none,
    downloads := none, likes := none, tags := none }

/-- The spec's no-slash example with raw author `"stanfordnlp"`. -/
def rawSentimentStanford : RawRecord :=
  { id := some "sentiment140", author := some "stanfordnlp",
    downloads := some 7, likes := some 3, tags := some ["nlp"] }

/-- A no-slash record whose raw author is present but the empty string. -/
def rawSentimentEmpty : RawRecord :=
  { id := some "sentiment140", author := some "",
    downloads := none, likes := none, tags := none }

/-! Helper lemmas about the character-level slash split. -/

/-- The character kept by `beforeFirstSlash` is never `'/'`. -/
theorem slash_not_mem_takeWhile (l : List Char) :
    '/' ∉ l.takeWhile (fun c => c != '/') := by
  intro h
  have hp := List.mem_takeWhile_imp h
  simp at hp

/-- If `'/'` occurs in `l`, then `l` is its slash-free `takeWhile` part,
followed by `'/'`, followed by a remainder. -/
theorem takeWhile_slash_decomp (l : List Char) (h : '/' ∈ l) :
    ∃ post, l = l.takeWhile (fun c => c != '/') ++ '/' :: post := by
  induction l with
  | nil => cases h
  | cons c cs ih =>
    by_cases hc : c = '/'
    · subst hc
      exact ⟨cs, by simp [List.takeWhile_cons]⟩
    · have hmem : '/' ∈ cs := by
        rcases List.mem_cons.mp h with h1 | h1
        · exact absurd h1.symm hc
        · exact h1
      obtain ⟨post, hp⟩ := ih hmem
      refine ⟨post, ?_⟩
      have hbne : (c != '/') = true := by simp [hc]
      simp only [List.takeWhile_cons, hbne, if_pos, List.cons_append]
      exact congrArg (c :: ·) hp

/-- C1 (amended).  Author resolution: if `id` contains `'/'`, the
normalized author is the substring of `id` before the first `'/'`
(characterized implementation-independently: the author is slash-free and
`id` is the author, then `'/'`, then a remainder), regardless of the raw
author field; if `id` has no `'/'`, the normalized author is the raw
author field when present and non-empty, and `"N/A"` when the raw author
field is absent or empty. -/
theorem C1_author_resolution (m : RawRecord) (i : String) (hid : m.id = some i) :
    (hasSlash i = true →
      ∃ post : String, i = (normalizeModel m).author ++ "/" ++ post ∧
        '/' ∉ (normalizeModel m).author.data)
    ∧ (hasSlash i = false →
      (∀ a : String, m.author = some a → a ≠ "" → (normalizeModel m).author = a)
      ∧ ((m.author = none ∨ m.author = some "") → (normalizeModel m).author = "N/A")) := by
  have hA : (normalizeModel m).author =
      if hasSlash i then beforeFirstSlash i
      else
        match m.author with
        | some a => if a = "" then "N/A" else a
        | none => "N/A" := by
    simp [normalizeModel, hid]
  constructor
  · intro hs
    rw [hA, if_pos hs]
    have hmem : '/' ∈ i.data := by
      have := hs
      simp [hasSlash] at this
      exact this
    obtain ⟨post, hp⟩ := takeWhile_slash_decomp i.data hmem
    refine ⟨String.mk post, ?_, ?_⟩
    · apply String.ext
      have hd : ((beforeFirstSlash i) ++ "/" ++ String.mk post).data
          = i.data.takeWhile (fun c => c != '/') ++ '/' :: post := by
        simp [beforeFirstSlash, String.data_append]
      rw [hd]
      exact hp
    · simpa [beforeFirstSlash] using slash_not_mem_takeWhile i.data
  · intro hns
    rw [hA, if_neg (by simp [hns])]
    constructor
    · intro a ha hne
      rw [ha]
      simp [hne]
    · rintro (h1 | h1)
      · rw [h1]
      · rw [h1]
        simp

/-- C1 witness: the theorem applied to the spec's three examples. -/
theorem C1_author_resolution_witness :
    (∃ post : String, "google/bert-base" = (normalizeModel rawGoogle).author ++ "/" ++ post ∧
      '/' ∉ (normalizeModel rawGoogle).author.data)
    ∧ (normalizeModel rawSentimentNone).author = "N/A"
    ∧ (normalizeModel rawSentimentStanford).author = "stanfordnlp" :=
  ⟨(C1_author_resolution rawGoogle "google/bert-base" rfl).1 (by decide),
   ((C1_author_resolution rawSentimentNone "sentiment140" rfl).2 (by decide)).2 (Or.inl rfl),
   ((C1_author_resolution rawSentimentStanford "sentiment140" rfl).2 (by decide)).1
     "stanfordnlp" rfl (by decide)⟩

/-- C1 counterexample: the claim as stated says that with no `'/'` in `id`
the raw author field wins whenever it is *present*; but for the raw record
with `id = "sentiment140"` and author present as `""`, the code normalizes
the author to `"N/A"`, not to the present raw author `""`. -/
theorem C1_counterexample :
    rawSentimentEmpty.author = some ""
    ∧ hasSlash "sentiment140" = false
    ∧ (normalizeModel rawSentimentEmpty).author ≠ ""
    ∧ (normalizeModel rawSentimentEmpty).author = "N/A" := by
  refine ⟨rfl, by decide, by decide, by decide⟩

/-- C9.  A present-but-empty raw author field is treated as absent: when
`id` has no `'/'` and the raw author is `some ""` (a present `None` and an
absent attribute coincide in the source via `getattr(model, "author",
None)`), both normalizers produce the literal `"N/A"`, not `""`. -/
theorem C9_empty_author_is_na (m : RawRecord) (i : String) (hid : m.id = some i)
    (hns : hasSlash i = false) (ha : m.author = some "") :
    (normalizeModel m).author = "N/A" ∧ (normalizeDataset m).author = "N/A" := by
  refine ⟨?_, ?_⟩
  · simp [normalizeModel, hid, hns, ha]
  · simp [normalizeDataset, hid, hns, ha]

/-- C9 witness at the concrete empty-author record. -/
theorem C9_empty_author_is_na_witness :
    (normalizeModel rawSentimentEmpty).author = "N/A"
    ∧ (normalizeDataset rawSentimentEmpty).author = "N/A" :=
  C9_empty_author_is_na rawSentimentEmpty "sentiment140" rfl (by decide) rfl

/-- A service that always fails. -/
def svcFail : Service := fun _ => Except.error { msg := "connection refused" }

/-- A service that always yields an empty stream. -/
def svcEmpty : Service := fun _ => Except.ok []

/-- A service that yields one record. -/
def svcOne : Service := fun _ => Except.ok [rawSentimentStanford]

/-- A service that ignores the requested limit and streams two records. -/
def svcOverLimit : Service := fun _ => Except.ok [rawGoogle, rawSentimentStanford]

/-- C2.  If the catalog-service call fails with `e`, the query fails with
the `SearchError` wrapping `e`, the original failure is preserved as the
`cause`, and no normalized records are returned (the result is the error,
never `Except.ok`). -/
theorem C2_error_wrapping (query : Option String) (limit : Nat) (author : Option String)
    (tags : Option (List String)) (task : Option String) (api : Service) (e : ServiceError) :
    (api (modelKwargs query limit author tags task) = Except.error e →
      search_models query limit author tags task api = Except.error (wrapModelError e)
      ∧ (wrapModelError e).cause = e
      ∧ ∀ out, search_models query limit author tags task api ≠ Except.ok out)
    ∧ (api (datasetKwargs query limit author tags) = Except.error e →
      search_datasets query limit author tags api = Except.error (wrapDatasetError e)
      ∧ (wrapDatasetError e).cause = e
      ∧ ∀ out, search_datasets query limit author tags api ≠ Except.ok out) := by
  constructor
  · intro h
    refine ⟨by simp [search_models, h], rfl, ?_⟩
    intro out hout
    simp [search_models, h] at hout
  · intro h
    refine ⟨by simp [search_datasets, h], rfl, ?_⟩
    intro out hout
    simp [search_datasets, h] at hout

/-- C2 witness: a concrete failing service for both query functions. -/
theorem C2_error_wrapping_witness :
    search_models none 10 none none none svcFail
      = Except.error (wrapModelError { msg := "connection refused" })
    ∧ (wrapModelError { msg := "connection refused" }).cause = { msg := "connection refused" }
    ∧ search_datasets none 10 none none svcFail
      = Except.error (wrapDatasetError { msg := "connection refused" }) :=
  ⟨((C2_error_wrapping none 10 none none none svcFail ⟨"connection refused"⟩).1 rfl).1,
   ((C2_error_wrapping none 10 none none none svcFail ⟨"connection refused"⟩).1 rfl).2.1,
   ((C2_error_wrapping none 10 none none none svcFail ⟨"connection refused"⟩).2 rfl).1⟩

/-- C3.  Omitted-in, omitted-out: an omitted (`none`) `query`, `author`,
`tags` or `task` contributes no key at all to the outbound kwargs, while
the `limit` key is always present carrying the supplied limit; the Python
signature default of `limit` is `10`. -/
theorem C3_omitted_in_omitted_out (query : Option String) (limit : Nat)
    (author : Option String) (tags : Option (List String)) (task : Option String) :
    (("limit", ParamValue.nat limit) ∈ modelKwargs query limit author tags task
      ∧ ("limit", ParamValue.nat limit) ∈ datasetKwargs query limit author tags
      ∧ defaultLimit = 10)
    ∧ (query = none → ∀ v, ("search", v) ∉ modelKwargs query limit author tags task
        ∧ ("search", v) ∉ datasetKwargs query limit author tags)
    ∧ (author = none → ∀ v, ("author", v) ∉ modelKwargs query limit author tags task
        ∧ ("author", v) ∉ datasetKwargs query limit author tags)
    ∧ (tags = none → ∀ v, ("filter", v) ∉ modelKwargs query limit author tags task
        ∧ ("filter", v) ∉ datasetKwargs query limit author tags)
    ∧ (task = none → ∀ v, ("pipeline_tag", v) ∉ modelKwargs query limit author tags task) := by
  refine ⟨⟨by simp [modelKwargs], by simp [datasetKwargs], rfl⟩, ?_, ?_, ?_, ?_⟩
  · rintro rfl v
    constructor
    · intro h
      simp only [modelKwargs] at h
      split_ifs at h <;> simp_all [optStrTruthy, optListTruthy]
    · intro h
      simp only [datasetKwargs] at h
      split_ifs at h <;> simp_all [optStrTruthy, optListTruthy]
  · rintro rfl v
    constructor
    · intro h
      simp only [modelKwargs] at h
      split_ifs at h <;> simp_all [optStrTruthy, optListTruthy]
    · intro h
      simp only [datasetKwargs] at h
      split_ifs at h <;> simp_all [optStrTruthy, optListTruthy]
  · rintro rfl v
    constructor
    · intro h
      simp only [modelKwargs] at h
      split_ifs at h <;> simp_all [optStrTruthy, optListTruthy]
    · intro h
      simp only [datasetKwargs] at h
      split_ifs at h <;> simp_all [optStrTruthy, optListTruthy]
  · rintro rfl v h
    simp only [modelKwargs] at h
    split_ifs at h <;> simp_all [optStrTruthy, optListTruthy]

/-- C3 witness: with every filter omitted, the model kwargs are exactly the
singleton `limit` entry, and no filter key occurs. -/
theorem C3_omitted_in_omitted_out_witness :
    modelKwargs none defaultLimit none none none = [("limit", ParamValue.nat 10)]
    ∧ ("search", ParamValue.str "x") ∉ modelKwargs none defaultLimit none none none :=
  ⟨by simp [modelKwargs, defaultLimit, optStrTruthy, optListTruthy],
   ((C3_omitted_in_omitted_out none defaultLimit none none none).2.1 rfl
     (ParamValue.str "x")).1⟩

/-- C4.  Total defaulting: an absent raw `downloads`, `likes` or `tags`
field normalizes to `0`, `0`, `[]` respectively, in both normalizers; both
normalizers are total Lean functions into `NormalizedRecord`, whose type
already forces every field present and well-typed (`id`/`author` strings,
`downloads`/`likes` naturals, `tags` a list of strings). -/
theorem C4_total_defaulting (m : RawRecord) :
    (m.downloads = none →
      (normalizeModel m).downloads = 0 ∧ (normalizeDataset m).downloads = 0)
    ∧ (m.likes = none → (normalizeModel m).likes = 0 ∧ (normalizeDataset m).likes = 0)
    ∧ (m.tags = none → (normalizeModel m).tags = [] ∧ (normalizeDataset m).tags = []) := by
  refine ⟨?_, ?_, ?_⟩ <;> intro h
  · exact ⟨by simp [normalizeModel, h], by simp [normalizeDataset, h]⟩
  · exact ⟨by simp [normalizeModel, h], by simp [normalizeDataset, h]⟩
  · exact ⟨by simp [normalizeModel, h], by simp [normalizeDataset, h]⟩

/-- C4 witness: a raw record missing all three counts/tags fields defaults
to `0`, `0`, `[]`. -/
theorem C4_total_defaulting_witness :
    (normalizeModel rawSentimentNone).downloads = 0
    ∧ (normalizeModel rawSentimentNone).likes = 0
    ∧ (normalizeModel rawSentimentNone).tags = [] :=
  ⟨((C4_total_defaulting rawSentimentNone).1 rfl).1,
   ((C4_total_defaulting rawSentimentNone).2.1 rfl).1,
   ((C4_total_defaulting rawSentimentNone).2.2 rfl).1⟩

/-- C6.  Empty result is not an error: a service call yielding zero raw
records makes both query functions return `Except.ok []`. -/
theorem C6_empty_not_error (query : Option String) (limit : Nat) (author : Option String)
    (tags : Option (List String)) (task : Option String) (api : Service) :
    (api (modelKwargs query limit author tags task) = Except.ok [] →
      search_models query limit author tags task api = Except.ok [])
    ∧ (api (datasetKwargs query limit author tags) = Except.ok [] →
      search_datasets query limit author tags api = Except.ok []) := by
  constructor
  · intro h
    simp [search_models, h]
  · intro h
    simp [search_datasets, h]

/-- C6 witness: the empty service. -/
theorem C6_empty_not_error_witness :
    search_models (some "bert") 5 none none none svcEmpty = Except.ok []
    ∧ search_datasets (some "bert") 5 none none svcEmpty = Except.ok [] :=
  ⟨(C6_empty_not_error (some "bert") 5 none none none svcEmpty).1 rfl,
   (C6_empty_not_error (some "bert") 5 none none none svcEmpty).2 rfl⟩

/-- C7.  Determinism and order preservation: the query result depends only
on the service's response to the one built request (so two calls with
identical parameters against an unchanged catalog — services agreeing on
that request — return identical sequences), and a successful result is
exactly the service's stream mapped in order through the normalizer. -/
theorem C7_deterministic_order_preserving (query : Option String) (limit : Nat)
    (author : Option String) (tags : Option (List String)) (task : Option String)
    (api api2 : Service) :
    (api (modelKwargs query limit author tags task)
        = api2 (modelKwargs query limit author tags task) →
      search_models query limit author tags task api
        = search_models query limit author tags task api2)
    ∧ (∀ rs, api (modelKwargs query limit author tags task) = Except.ok rs →
      search_models query limit author tags task api = Except.ok (rs.map normalizeModel))
    ∧ (api (datasetKwargs query limit author tags)
        = api2 (datasetKwargs query limit author tags) →
      search_datasets query limit author tags api
        = search_datasets query limit author tags api2)
    ∧ (∀ rs, api (datasetKwargs query limit author tags) = Except.ok rs →
      search_datasets query limit author tags api = Except.ok (rs.map normalizeDataset)) := by
  refine ⟨?_, ?_, ?_, ?_⟩
  · intro h
    simp [search_models, h]
  · intro rs h
    simp [search_models, h]
  · intro h
    simp [search_datasets, h]
  · intro rs h
    simp [search_datasets, h]

/-- C7 witness: two syntactically different but extensionally equal
services give the same answer, which is the stream mapped in order. -/
theorem C7_deterministic_order_preserving_witness :
    search_models none 10 none none none svcOne
      = search_models none 10 none none none (fun _ => Except.ok [rawSentimentStanford])
    ∧ search_models none 10 none none none svcOne
      = Except.ok [normalizeModel rawSentimentStanford] :=
  ⟨(C7_deterministic_order_preserving none 10 none none none svcOne
      (fun _ => Except.ok [rawSentimentStanford])).1 rfl,
   (C7_deterministic_order_preserving none 10 none none none svcOne svcOne).2.1
      [rawSentimentStanford] rfl⟩

/-- C8.  Model/dataset equivalence: the dataset normalizer agrees with the
model normalizer on every raw record; the dataset kwargs are exactly the
model kwargs with `task` omitted; the two error wrappers keep the same
cause (they differ only in the "models"/"datasets" word of the context
message); and on any service the two pipelines succeed with the same
normalized sequence, or fail wrapping the same cause. -/
theorem C8_model_dataset_equivalence :
    (∀ r : RawRecord, normalizeDataset r = normalizeModel r)
    ∧ (∀ (query : Option String) (limit : Nat) (author : Option String)
        (tags : Option (List String)),
        datasetKwargs query limit author tags = modelKwargs query limit author tags none)
    ∧ (∀ e : ServiceError, (wrapDatasetError e).cause = (wrapModelError e).cause)
    ∧ (∀ (query : Option String) (limit : Nat) (author : Option String)
        (tags : Option (List String)) (api : Service),
        (∀ rs, api (datasetKwargs query limit author tags) = Except.ok rs →
          search_datasets query limit author tags api = Except.ok (rs.map normalizeModel)
          ∧ search_models query limit author tags none api = Except.ok (rs.map normalizeModel))
        ∧ (∀ e, api (datasetKwargs query limit author tags) = Except.error e →
          search_datasets query limit author tags api = Except.error (wrapDatasetError e)
          ∧ search_models query limit author tags none api
              = Except.error (wrapModelError e))) := by
  have hnorm : ∀ r : RawRecord, normalizeDataset r = normalizeModel r := fun r => rfl
  have hkw : ∀ (query : Option String) (limit : Nat) (author : Option String)
      (tags : Option (List String)),
      datasetKwargs query limit author tags = modelKwargs query limit author tags none := by
    intro query limit author tags
    simp [datasetKwargs, modelKwargs, optStrTruthy]
  refine ⟨hnorm, hkw, fun e => rfl, ?_⟩
  intro query limit author tags api
  constructor
  · intro rs h
    have h2 : api (modelKwargs query limit author tags none) = Except.ok rs := by
      rw [← hkw]; exact h
    constructor
    · simp only [search_datasets, h]
      simp [funext hnorm]
    · simp [search_models, h2]
  · intro e h
    have h2 : api (modelKwargs query limit author tags none) = Except.error e := by
      rw [← hkw]; exact h
    exact ⟨by simp [search_datasets, h], by simp [search_models, h2]⟩

/-- C8 witness: the two pipelines at a concrete service, stream and
failure. -/
theorem C8_model_dataset_equivalence_witness :
    normalizeDataset rawGoogle = normalizeModel rawGoogle
    ∧ datasetKwargs (some "bert") 5 none none = modelKwargs (some "bert") 5 none none none
    ∧ search_datasets none 10 none none svcOne
        = Except.ok [normalizeModel rawSentimentStanford]
    ∧ search_models none 10 none none none svcOne
        = Except.ok [normalizeModel rawSentimentStanford]
    ∧ search_datasets none 10 none none svcFail
        = Except.error (wrapDatasetError { msg := "connection refused" }) :=
  ⟨C8_model_dataset_equivalence.1 rawGoogle,
   C8_model_dataset_equivalence.2.1 (some "bert") 5 none none,
   ((C8_model_dataset_equivalence.2.2.2 none 10 none none svcOne).1
      [rawSentimentStanford] rfl).1,
   ((C8_model_dataset_equivalence.2.2.2 none 10 none none svcOne).1
      [rawSentimentStanford] rfl).2,
   ((C8_model_dataset_equivalence.2.2.2 none 10 none none svcFail).2
      ⟨"connection refused"⟩ rfl).1⟩

/-- C5 counterexample: the code performs no local truncation of the
service's stream.  With `limit = 1` but a service whose stream offers two
records, `search_models` returns two normalized records — more than the
requested limit — refuting the claim's "even if the catalog service's
result stream would offer more than n items". -/
theorem C5_counterexample :
    ∃ out, search_models none 1 none none none svcOverLimit = Except.ok out
      ∧ 1 < out.length := by
  refine ⟨[normalizeModel rawGoogle, normalizeModel rawSentimentStanford], rfl, ?_⟩
  simp

/-- C5 (amended).  The outbound request always carries the requested
limit; the core returns exactly one normalized record per raw record the
service streams, so whenever the service's stream honors the requested
limit (at most `limit` items, as instructed by the `limit` kwarg), the
returned sequence has at most `limit` records. -/
theorem C5_limit_respected (query : Option String) (limit : Nat) (author : Option String)
    (tags : Option (List String)) (task : Option String) (api : Service)
    (rs : List RawRecord) :
    (("limit", ParamValue.nat limit) ∈ modelKwargs query limit author tags task
      ∧ ("limit", ParamValue.nat limit) ∈ datasetKwargs query limit author tags)
    ∧ (api (modelKwargs query limit author tags task) = Except.ok rs →
      rs.length ≤ limit →
      ∃ out, search_models query limit author tags task api = Except.ok out
        ∧ out.length = rs.length ∧ out.length ≤ limit)
    ∧ (api (datasetKwargs query limit author tags) = Except.ok rs →
      rs.length ≤ limit →
      ∃ out, search_datasets query limit author tags api = Except.ok out
        ∧ out.length = rs.length ∧ out.length ≤ limit) := by
  refine ⟨⟨by simp [modelKwargs], by simp [datasetKwargs]⟩, ?_, ?_⟩
  · intro h hlen
    refine ⟨rs.map normalizeModel, by simp [search_models, h], by simp, by simpa using hlen⟩
  · intro h hlen
    refine ⟨rs.map normalizeDataset, by simp [search_datasets, h], by simp, by simpa using hlen⟩

/-- C5 witness: a one-record stream under `limit = 10`. -/
theorem C5_limit_respected_witness :
    ∃ out, search_models none 10 none none none svcOne = Except.ok out
      ∧ out.length = 1 ∧ out.length ≤ 10 :=
  (C5_limit_respected none 10 none none none svcOne [rawSentimentStanford]).2.1
    rfl (by decide)

/-- C10.  Supplied-but-empty filters are indistinguishable from omitted
ones: an empty-string `query` or `author`, or an empty `tags` list,
produces exactly the kwargs of the omitted parameter, and in particular no
key for that parameter is carried. -/
theorem C10_empty_filters_like_omitted (limit : Nat) (query author : Option String)
    (tags : Option (List String)) (task : Option String) :
    (modelKwargs (some "") limit author tags task = modelKwargs none limit author tags task
      ∧ datasetKwargs (some "") limit author tags = datasetKwargs none limit author tags
      ∧ ∀ v, ("search", v) ∉ modelKwargs (some "") limit author tags task
        ∧ ("search", v) ∉ datasetKwargs (some "") limit author tags)
    ∧ (modelKwargs query limit (some "") tags task = modelKwargs query limit none tags task
      ∧ datasetKwargs query limit (some "") tags = datasetKwargs query limit none tags
      ∧ ∀ v, ("author", v) ∉ modelKwargs query limit (some "") tags task
        ∧ ("author", v) ∉ datasetKwargs query limit (some "") tags)
    ∧ (modelKwargs query limit author (some []) task
        = modelKwargs query limit author none task
      ∧ datasetKwargs query limit author (some []) = datasetKwargs query limit author none
      ∧ ∀ v, ("filter", v) ∉ modelKwargs query limit author (some []) task
        ∧ ("filter", v) ∉ datasetKwargs query limit author (some [])) := by
  refine ⟨⟨?_, ?_, ?_⟩, ⟨?_, ?_, ?_⟩, ⟨?_, ?_, ?_⟩⟩
  · simp [modelKwargs, optStrTruthy_some_empty, optStrTruthy_none]
  · simp [datasetKwargs, optStrTruthy_some_empty, optStrTruthy_none]
  · intro v
    constructor
    · intro h
      simp [modelKwargs, optStrTruthy_some_empty, optListTruthy_some_nil] at h
    · intro h
      simp [datasetKwargs, optStrTruthy_some_empty, optListTruthy_some_nil] at h
  · simp [modelKwargs, optStrTruthy_some_empty, optStrTruthy_none]
  · simp [datasetKwargs, optStrTruthy_some_empty, optStrTruthy_none]
  · intro v
    constructor
    · intro h
      simp [modelKwargs, optStrTruthy_some_empty, optListTruthy_some_nil] at h
    · intro h
      simp [datasetKwargs, optStrTruthy_some_empty, optListTruthy_some_nil] at h
  · simp [modelKwargs, optListTruthy_some_nil, optListTruthy_none]
  · simp [datasetKwargs, optListTruthy_some_nil, optListTruthy_none]
  · intro v
    constructor
    · intro h
      simp [modelKwargs, optStrTruthy_some_empty, optListTruthy_some_nil] at h
    · intro h
      simp [datasetKwargs, optStrTruthy_some_empty, optListTruthy_some_nil] at h

/-- C10 witness: empty-string query at concrete remaining parameters. -/
theorem C10_empty_filters_like_omitted_witness :
    modelKwargs (some "") 10 none none none = modelKwargs none 10 none none none
    ∧ ("search", ParamValue.str "") ∉ modelKwargs (some "") 10 none none none :=
  ⟨(C10_empty_filters_like_omitted 10 none none none none).1.1,
   ((C10_empty_filters_like_omitted 10 none none none none).1.2.2
      (ParamValue.str "")).1⟩
